import Mathlib

/-!
Verification of the stock-scanner repository (src/stock_scanner.py and
src/stock_scanner_with_sheets.py) against its natural-language specification.

The Python code works on pandas series of floats.  The embedding models prices
and volumes as exact rationals (`ℚ`).  Floating-point square roots
(`Series.std`, `np.sqrt(252)`) are modelled by `ratSqrt`, an exact integer
square root scaled to 6 decimal digits - the same role the binary-float
approximation plays in the source.  A pandas `NaN` that flows into a
comparison (which is then `False` in Python) is modelled with `Option ℚ`:
`none` stands for NaN/None and any comparison against it is `False`
(the predicate `onSome`).
-/

/-- Sum of a list of rationals. -/
def qsum (l : List ℚ) : ℚ := l.foldr (· + ·) 0

/-- Arithmetic mean, as computed by `Series.mean()` on a NaN-free series. -/
def mean (l : List ℚ) : ℚ := qsum l / (l.length : ℚ)

/-- The last `n` entries of a list: pandas `Series.tail(n)`. -/
def lastN (n : ℕ) (l : List ℚ) : List ℚ := l.drop (l.length - n)

/-- Sample variance (`ddof = 1`), the square of pandas `Series.std()`.
For a series of length ≤ 1 pandas yields NaN; the value is never used on such
series here (all call sites guard the length), so 0 is returned. -/
def sampleVar (l : List ℚ) : ℚ :=
  if l.length ≤ 1 then 0
  else qsum (l.map (fun x => (x - mean l) ^ 2)) / ((l.length : ℚ) - 1)

/-- Fuelled integer square root (digit-by-digit recursion on `n / 4`);
fuel `n` always suffices because the recursion depth is logarithmic. -/
def isqrtFuel : ℕ → ℕ → ℕ
  | 0, n => n
  | fuel + 1, n =>
    if n < 2 then n
    else
      let r := 2 * isqrtFuel fuel (n / 4)
      if n < (r + 1) * (r + 1) then r else r + 1

/-- Integer square root. -/
def isqrt (n : ℕ) : ℕ := isqrtFuel n n

/-- Rational square root, exact to 6 decimal digits: the embedding of the
double-precision square root used by `numpy`/`pandas`.  Exact on the perfect
squares appearing in the concrete scenarios (in particular `ratSqrt 0 = 0`). -/
def ratSqrt (q : ℚ) : ℚ :=
  if q ≤ 0 then 0
  else (isqrt (q.num.toNat * q.den * 1000000000000) : ℚ) / ((q.den : ℚ) * 1000000)

/-- Bar-to-bar differences: pandas `Series.diff()` without its leading NaN. -/
def deltas (close : List ℚ) : List ℚ :=
  (close.zip close.tail).map (fun p => p.2 - p.1)

/-- Percent returns: pandas `Series.pct_change().dropna()`. -/
def pctReturns (close : List ℚ) : List ℚ :=
  (close.zip close.tail).map (fun p => (p.2 - p.1) / p.1)

/-- Maximum of a list (`Series.max()`); call sites guard against `[]`. -/
def listMax (l : List ℚ) : ℚ :=
  match l with
  | [] => 0
  | x :: xs => xs.foldl max x

/-- Minimum of a list (`Series.min()`); call sites guard against `[]`. -/
def listMin (l : List ℚ) : ℚ :=
  match l with
  | [] => 0
  | x :: xs => xs.foldl min x

/-- Comparison against a possibly-missing value.  A Python comparison whose
operand is `None`-guarded (`x is not None and p x`) or NaN evaluates to
`False` when the value is missing. -/
def onSome (y : Option ℚ) (p : ℚ → Prop) : Prop :=
  match y with
  | some q => p q
  | none => False

instance instDecOnSome (y : Option ℚ) (p : ℚ → Prop) [D : DecidablePred p] :
    Decidable (onSome y p) :=
  match y with
  | some q => D q
  | none => Decidable.isFalse id

/-- One conditional append to the Python `signals` list:
`if cond: signals.append(s)`. -/
def sigIf {α : Type} (c : Prop) [Decidable c] (s : α) : List α :=
  if c then [s] else []

/-- One OHLCV bar of the fetched data frame (the date index is irrelevant to
the scanned logic).  `opn` is the `Open` column. -/
structure Bar where
  opn : ℚ
  high : ℚ
  low : ℚ
  close : ℚ
  volume : ℚ
  deriving DecidableEq

/-- A bar with all four prices equal (used by the spec scenarios). -/
def mkBar (p v : ℚ) : Bar := ⟨p, p, p, p, v⟩

namespace StockScanner

/-! Embedding of `src/stock_scanner.py` (scanner v4.0). -/

/-- The `Close` column. -/
def closes (data : List Bar) : List ℚ := data.map Bar.close

/-- `close.iloc[-1]` (call sites guarantee the series is nonempty). -/
def last_close (data : List Bar) : ℚ := (closes data).getLastD 0

/-- `close.iloc[-2]`. -/
def prev_close (data : List Bar) : ℚ := (closes data).dropLast.getLastD 0

/-- `volume.iloc[-1]`. -/
def current_volume (data : List Bar) : ℚ := (data.map Bar.volume).getLastD 0

/-- `volume.tail(20).mean()`. -/
def avg_volume_20 (data : List Bar) : ℚ := mean (lastN 20 (data.map Bar.volume))

/-- `compute_rsi` (lines 56-76): trailing-window RSI with the zero-average-loss
fallback (100 on gains, 50 on no movement); `None` below `period+1` closes. -/
def compute_rsi (close : List ℚ) : Option ℚ :=
  if close.length < 14 + 1 then none
  else
    let gain := (deltas close).map (fun d => max d 0)
    let loss := (deltas close).map (fun d => max (-d) 0)
    let avg_gain := mean (lastN 14 gain)
    let avg_loss := mean (lastN 14 loss)
    if avg_loss = 0 then (if 0 < avg_gain then some 100 else some 50)
    else some (100 - 100 / (1 + avg_gain / avg_loss))

/-- `compute_bollinger_bands` (lines 79-93): `(upper, middle, lower)`,
`None` below `period` closes. -/
def compute_bollinger_bands (close : List ℚ) : Option (ℚ × ℚ × ℚ) :=
  if close.length < 20 then none
  else
    let sma := mean (lastN 20 close)
    let std := ratSqrt (sampleVar (lastN 20 close))
    some (sma + 2 * std, sma, sma - 2 * std)

/-- `compute_vwap` (lines 96-109).  A zero cumulative volume yields a float
infinity/NaN in the source, which makes the dependent comparison false; that
case is modelled as `none`. -/
def compute_vwap (data : List Bar) : Option ℚ :=
  if data.length = 0 then none
  else
    let pv := qsum (data.map (fun b => (b.high + b.low + b.close) / 3 * b.volume))
    let tv := qsum (data.map Bar.volume)
    if tv = 0 then none else some (pv / tv)

/-- `close.tail(20).mean()` (line 144). -/
def sma_20 (data : List Bar) : ℚ := mean (lastN 20 (closes data))

/-- `close.tail(50).mean() if len(close) >= 50 else None` (line 145). -/
def sma_50 (data : List Bar) : Option ℚ :=
  if 50 ≤ (closes data).length then some (mean (lastN 50 (closes data))) else none

/-- MACD approximation (lines 155-160): difference of the 12- and 26-bar
trailing means, `None` below 26 bars. -/
def macd (data : List Bar) : Option ℚ :=
  if 26 ≤ (closes data).length then
    some (mean (lastN 12 (closes data)) - mean (lastN 26 (closes data)))
  else none

/-- `bb_upper` as unpacked on line 149. -/
def bb_upper (data : List Bar) : Option ℚ :=
  (compute_bollinger_bands (closes data)).map (fun t => t.1)

/-- `bb_lower` as unpacked on line 149. -/
def bb_lower (data : List Bar) : Option ℚ :=
  (compute_bollinger_bands (closes data)).map (fun t => t.2.2)

/-- `high_52w` (lines 163-173): max of the 1-year highs, falling back to the
last close when the 1-year fetch raised (`none`) or returned an empty frame. -/
def high_52w (data : List Bar) (year_data : Option (List Bar)) : ℚ :=
  match year_data with
  | none => last_close data
  | some [] => last_close data
  | some l => listMax (l.map Bar.high)

/-- `low_52w` (lines 163-173), same fallback as `high_52w`. -/
def low_52w (data : List Bar) (year_data : Option (List Bar)) : ℚ :=
  match year_data with
  | none => last_close data
  | some [] => last_close data
  | some l => listMin (l.map Bar.low)

/-- The eleven signal names of stock_scanner.py, in source order. -/
inductive BSig
  | Golden_Cross
  | RSI_Normal
  | RSI_Bounce
  | Volume_Surge
  | Near_52W_High
  | From_Low_Rebound
  | BB_Oversold_Bounce
  | BB_Breakout
  | Above_VWAP
  | New_52W_High
  | Strong_Rebound
  deriving DecidableEq

/-- Signal generation, lines 176-220.  Each rule appends its name when its
condition holds; a `None` operand (modelled by `onSome`) never fires, and the
truthiness guards `if avg_volume_20 and ...` / `if high_52w and ...` are the
`≠ 0` conjuncts. -/
def signals (data : List Bar) (year_data : Option (List Bar)) : List BSig :=
  sigIf (onSome (sma_50 data) (fun s => s < sma_20 data)) .Golden_Cross
    ++ sigIf (onSome (compute_rsi (closes data)) (fun r => 30 < r ∧ r < 70)) .RSI_Normal
    ++ sigIf (onSome (compute_rsi (closes data)) (fun r => 30 < r ∧ r < 45)) .RSI_Bounce
    ++ sigIf (avg_volume_20 data ≠ 0 ∧ avg_volume_20 data * 1.5 < current_volume data)
      .Volume_Surge
    ++ sigIf (high_52w data year_data ≠ 0 ∧ high_52w data year_data * 0.95 < last_close data)
      .Near_52W_High
    ++ sigIf (low_52w data year_data ≠ 0 ∧ low_52w data year_data * 1.2 < last_close data)
      .From_Low_Rebound
    ++ sigIf (onSome (bb_lower data) (fun b => last_close data < b * 1.02)) .BB_Oversold_Bounce
    ++ sigIf (onSome (bb_upper data) (fun b => b * 0.98 < last_close data)) .BB_Breakout
    ++ sigIf (onSome (compute_vwap data) (fun v => v * 1.02 < last_close data)) .Above_VWAP
    ++ sigIf (high_52w data year_data ≠ 0 ∧ high_52w data year_data * 0.999 ≤ last_close data)
      .New_52W_High
    ++ sigIf (low_52w data year_data ≠ 0 ∧ low_52w data year_data * 1.3 < last_close data)
      .Strong_Rebound

/-- `scan_single_stock` (lines 112-246): the 3-month fetch outcome is the
`Except` argument (`.error` = download raised), the 1-year fetch outcome is
the `Option` argument (`none` = download raised, `some []` = empty frame).
Returns the signal list of an admitted ticker (≥ 3 signals), `None` otherwise.
The malformed-price guard of line 135 is the `prev_close = 0` test (in the
rational model `safe_float` cannot fail on well-formed bars). -/
def scan_single_stock (fetched : Except Unit (List Bar)) (year_data : Option (List Bar)) :
    Option (List BSig) :=
  match fetched with
  | .error _ => none
  | .ok data =>
    if data.length < 20 then none
    else if prev_close data = 0 then none
    else
      let sigs := signals data year_data
      if 3 ≤ sigs.length then some sigs else none

/-- The per-ticker loop of `main` (lines 267-271): every ticker is scanned,
`None` results are dropped, the batch never aborts. -/
def runBatch (batch : List (Except Unit (List Bar) × Option (List Bar))) : List (List BSig) :=
  batch.filterMap (fun p => scan_single_stock p.1 p.2)

end StockScanner

namespace Sheets

/-! Embedding of `src/stock_scanner_with_sheets.py` (scanner v2.0, the
"advanced variant" with the risk scorer). -/

/-- The `Close` column. -/
def closes (data : List Bar) : List ℚ := data.map Bar.close

/-- `data['Close'].iloc[-1]`. -/
def last_close (data : List Bar) : ℚ := (closes data).getLastD 0

/-- `data['Close'].iloc[-2]`. -/
def prev_close (data : List Bar) : ℚ := (closes data).dropLast.getLastD 0

/-- `data['Volume'].iloc[-1]`. -/
def current_volume (data : List Bar) : ℚ := (data.map Bar.volume).getLastD 0

/-- `data['Volume'].tail(20).mean()`. -/
def avg_volume_20 (data : List Bar) : ℚ := mean (lastN 20 (data.map Bar.volume))

/-- `calculate_volatility` (lines 148-152): annualized standard deviation of
daily percent returns, `std(ddof=1) * sqrt(252) * 100`. -/
def calculate_volatility (data : List Bar) : ℚ :=
  ratSqrt (sampleVar (pctReturns (closes data))) * ratSqrt 252 * 100

/-- `close_series.rolling(window=20).mean().iloc[-1]` (line 191). -/
def sma_20 (data : List Bar) : ℚ := mean (lastN 20 (closes data))

/-- `close_series.rolling(window=50).mean().iloc[-1]` (line 192); the caller
guarantees ≥ 50 bars. -/
def sma_50 (data : List Bar) : ℚ := mean (lastN 50 (closes data))

/-- `close_series.rolling(window=20).mean().iloc[-2]` (line 193). -/
def prev_sma_20 (data : List Bar) : ℚ := mean (lastN 20 (closes data).dropLast)

/-- `close_series.rolling(window=50).mean().iloc[-2]` (line 194): NaN when
exactly 50 bars exist (`none`), otherwise the 50-bar mean one bar earlier. -/
def prev_sma_50 (data : List Bar) : Option ℚ :=
  if 51 ≤ (closes data).length then some (mean (lastN 50 (closes data).dropLast)) else none

/-- The inline RSI of lines 197-202: `rs = gain/loss` in floats, so a zero
average loss gives `rs = inf` (RSI 100) when gains exist and `rs = NaN`
(RSI NaN, modelled `none`) on a zero-movement window - there is no 50
fallback in this variant.  NaN below 15 closes. -/
def current_rsi (close : List ℚ) : Option ℚ :=
  if close.length < 14 + 1 then none
  else
    let avg_gain := mean (lastN 14 ((deltas close).map (fun d => max d 0)))
    let avg_loss := mean (lastN 14 ((deltas close).map (fun d => max (-d) 0)))
    if avg_loss = 0 then (if 0 < avg_gain then some 100 else none)
    else some (100 - 100 / (1 + avg_gain / avg_loss))

/-- `Series.ewm(span, adjust=False).mean()` recursion: `e₀ = x₀`,
`eᵢ = (1-α)·eᵢ₋₁ + α·xᵢ`. -/
def ewmAux (a : ℚ) (e : ℚ) : List ℚ → List ℚ
  | [] => [e]
  | x :: xs => e :: ewmAux a ((1 - a) * e + a * x) xs

/-- `Series.ewm(span, adjust=False).mean()` with `α = 2/(span+1)`. -/
def ewm (a : ℚ) : List ℚ → List ℚ
  | [] => []
  | x :: xs => ewmAux a x xs

/-- The MACD histogram series of lines 205-209: `macd_line = EMA12 − EMA26`,
`signal_line = EMA9(macd_line)`, histogram = difference. -/
def macd_hist (close : List ℚ) : List ℚ :=
  let ema_12 := ewm (2 / 13) close
  let ema_26 := ewm (2 / 27) close
  let macd_line := ema_12.zipWith (· - ·) ema_26
  let signal_line := ewm (2 / 10) macd_line
  macd_line.zipWith (· - ·) signal_line

/-- `macd_hist.iloc[-1]` (line 210). -/
def current_macd (close : List ℚ) : ℚ := (macd_hist close).getLastD 0

/-- `macd_hist.iloc[-2]` (line 211). -/
def prev_macd (close : List ℚ) : ℚ := (macd_hist close).dropLast.getLastD 0

/-- `upper_band.iloc[-1]` (lines 214-218). -/
def bb_upper (data : List Bar) : ℚ :=
  sma_20 data + 2 * ratSqrt (sampleVar (lastN 20 (closes data)))

/-- `lower_band.iloc[-1]` (lines 214-219). -/
def bb_lower (data : List Bar) : ℚ :=
  sma_20 data - 2 * ratSqrt (sampleVar (lastN 20 (closes data)))

/-- `sma_bb.iloc[-1]` (line 220). -/
def bb_middle (data : List Bar) : ℚ := sma_20 data

/-- `bb_width` (line 221). -/
def bb_width (data : List Bar) : ℚ :=
  (bb_upper data - bb_lower data) / bb_middle data * 100

/-- `vwap.iloc[-1]` (lines 224-226); as in `StockScanner.compute_vwap`, a zero
cumulative volume gives a float infinity/NaN, modelled as `none`. -/
def current_vwap (data : List Bar) : Option ℚ :=
  if data.length = 0 then none
  else
    let pv := qsum (data.map (fun b => (b.high + b.low + b.close) / 3 * b.volume))
    let tv := qsum (data.map Bar.volume)
    if tv = 0 then none else some (pv / tv)

/-- `high_52w` (lines 229-237): max of the 1-year highs, last close when the
1-year frame is empty (an exception in the 1-year download is handled in
`scan_single_stock`, whose whole body sits in one `try`). -/
def high_52w (data : List Bar) (ydl : List Bar) : ℚ :=
  if ydl = [] then last_close data else listMax (ydl.map Bar.high)

/-- `low_52w` (lines 229-237). -/
def low_52w (data : List Bar) (ydl : List Bar) : ℚ :=
  if ydl = [] then last_close data else listMin (ydl.map Bar.low)

/-- `high_20d` (lines 229-237): max of the 3-month highs over the last 20
bars, last close when the 1-year frame is empty. -/
def high_20d (data : List Bar) (ydl : List Bar) : ℚ :=
  if ydl = [] then last_close data else listMax (lastN 20 (data.map Bar.high))

/-- Volatility bucket of `calculate_risk_score` (lines 81-90), 5-25 points. -/
def risk_volatility (volatility : ℚ) : ℤ :=
  if 50 < volatility then 25
  else if 40 < volatility then 20
  else if 30 < volatility then 15
  else if 20 < volatility then 10
  else 5

/-- RSI bucket (lines 93-102), 5-20 points; a NaN RSI takes the `else`. -/
def risk_rsi (current_rsi : Option ℚ) : ℤ :=
  if onSome current_rsi (fun r => 80 < r) then 20
  else if onSome current_rsi (fun r => 70 < r) then 15
  else if onSome current_rsi (fun r => r < 20) then 20
  else if onSome current_rsi (fun r => r < 30) then 10
  else 5

/-- Distance-from-high bucket (lines 105-114), 5-15 points.  Note the source
takes the max of the 3-month frame it was passed, despite the 52-week name. -/
def risk_distance (data : List Bar) (last_close : ℚ) : ℤ :=
  let high_52w := listMax (data.map Bar.high)
  let distance_from_high := (high_52w - last_close) / high_52w * 100
  if 50 < distance_from_high then 5
  else if 30 < distance_from_high then 10
  else if distance_from_high < 5 then 15
  else 8

/-- MACD bucket (lines 117-124), 5-15 points. -/
def risk_macd (current_macd : ℚ) : ℤ :=
  if current_macd < -0.5 then 15
  else if current_macd < 0 then 10
  else if 0.5 < current_macd then 5
  else 8

/-- Bollinger-width bucket (lines 127-134), 5-15 points. -/
def risk_bb_width (bb_width : ℚ) : ℤ :=
  if 15 < bb_width then 15
  else if 10 < bb_width then 10
  else if bb_width < 5 then 5
  else 8

/-- Price-level bucket (lines 137-144), 3-10 points. -/
def risk_price (last_close : ℚ) : ℤ :=
  if last_close < 10 then 10
  else if last_close < 20 then 7
  else if 500 < last_close then 5
  else 3

/-- `calculate_risk_score` (lines 73-146): the sequential `risk_score +=`
over six independent if/elif chains is the sum of the six bucket values,
clamped to 100 by the final `min`. -/
def calculate_risk_score (data : List Bar) (last_close : ℚ) (current_rsi : Option ℚ)
    (current_macd bb_width volatility : ℚ) : ℤ :=
  min (risk_volatility volatility + risk_rsi current_rsi + risk_distance data last_close
    + risk_macd current_macd + risk_bb_width bb_width + risk_price last_close) 100

/-- The fifteen signal names of stock_scanner_with_sheets.py, in source order
(constructor ↦ source string): golden_cross ↦ 黃金交叉, ma_bullish ↦ 均線多頭,
rsi_rebound ↦ RSI反彈, rsi_strong ↦ RSI強勢, macd_turn_pos ↦ MACD翻正,
macd_accel ↦ MACD加速, volume_surge ↦ 成交量激增, near_20d_high ↦ 接近20日高,
near_52w_high ↦ 接近52週高, rebound_from_low ↦ 從低點反彈,
bb_break_upper ↦ 突破布林上軌, bb_lower_rebound ↦ 布林下軌反彈,
bb_strong_zone ↦ 布林帶強勢, above_vwap ↦ 站上VWAP, low_vol_volume ↦ 低波動放量. -/
inductive SSig
  | golden_cross
  | ma_bullish
  | rsi_rebound
  | rsi_strong
  | macd_turn_pos
  | macd_accel
  | volume_surge
  | near_20d_high
  | near_52w_high
  | rebound_from_low
  | bb_break_upper
  | bb_lower_rebound
  | bb_strong_zone
  | above_vwap
  | low_vol_volume
  deriving DecidableEq

/-- Signal generation, lines 250-303.  The RSI and MACD pairs are if/elif
chains.  The `bb_strong_zone` ratio `(close−bb_lower)/(bb_upper−bb_lower)`
is well-defined here only when `bb_upper ≠ bb_lower`; the rational division
yields 0 (rule does not fire) at equal bands, while the SOURCE raises
`ZeroDivisionError` there - that raise is modelled in `scan_single_stock`. -/
def signals (data : List Bar) (ydl : List Bar) : List SSig :=
  let rsi := current_rsi (closes data)
  let m := current_macd (closes data)
  let pm := prev_macd (closes data)
  let position_bb := (last_close data - bb_lower data) / (bb_upper data - bb_lower data)
  sigIf (sma_50 data < sma_20 data
      ∧ onSome (prev_sma_50 data) (fun s => prev_sma_20 data ≤ s)) .golden_cross
    ++ sigIf (sma_20 data < last_close data ∧ sma_50 data < sma_20 data) .ma_bullish
    ++ (if onSome rsi (fun r => 30 < r ∧ r < 50) then [.rsi_rebound]
      else if onSome rsi (fun r => 50 < r ∧ r < 70) then [.rsi_strong] else [])
    ++ (if 0 < m ∧ pm ≤ 0 then [.macd_turn_pos]
      else if 0 < m ∧ pm < m then [.macd_accel] else [])
    ++ sigIf (avg_volume_20 data * 1.5 < current_volume data) .volume_surge
    ++ sigIf (high_20d data ydl * 0.99 ≤ last_close data) .near_20d_high
    ++ sigIf (high_52w data ydl * 0.90 ≤ last_close data) .near_52w_high
    ++ sigIf (low_52w data ydl * 1.2 ≤ last_close data) .rebound_from_low
    ++ sigIf (bb_upper data < last_close data) .bb_break_upper
    ++ sigIf (prev_close data < bb_lower data ∧ bb_lower data ≤ last_close data)
      .bb_lower_rebound
    ++ sigIf (0.5 < position_bb ∧ position_bb ≤ 1.0) .bb_strong_zone
    ++ sigIf (onSome (current_vwap data) (fun v => v < last_close data)) .above_vwap
    ++ sigIf (calculate_volatility data < 20
      ∧ avg_volume_20 data * 1.3 < current_volume data) .low_vol_volume

/-- The run configuration (module constants, lines 29-33). -/
structure Config where
  min_signals : ℕ
  max_volatility : ℚ
  min_avg_volume : ℚ
  min_price : ℚ
  max_risk_score : ℤ
  deriving DecidableEq

/-- `MIN_SIGNALS = 3`, `MAX_VOLATILITY = 60`, `MIN_AVG_VOLUME = 500000`,
`MIN_PRICE = 5.0`, `MAX_RISK_SCORE = 70`. -/
def defaultConfig : Config :=
  { min_signals := 3, max_volatility := 60, min_avg_volume := 500000
    min_price := 5, max_risk_score := 70 }

/-- `scan_single_stock` (lines 154-340).  The two fetch outcomes are `Except`
arguments (`.error` = download raised; the whole body sits in one `try`, so
either raise gives `None`).  Filters in source order: bar count, liquidity,
price, volatility, risk, then signal count.  `bb_upper = bb_lower` raises
`ZeroDivisionError` at the `position_bb` line (293), which the `except` of
line 338 converts to `None` - hence that test between risk filter and signal
count. -/
def scan_single_stock (cfg : Config) (fetched : Except Unit (List Bar))
    (year_fetched : Except Unit (List Bar)) : Option (List SSig) :=
  match fetched with
  | .error _ => none
  | .ok data =>
    if data.length < 50 then none
    else if avg_volume_20 data < cfg.min_avg_volume then none
    else if last_close data < cfg.min_price then none
    else if cfg.max_volatility < calculate_volatility data then none
    else
      match year_fetched with
      | .error _ => none
      | .ok ydl =>
        if cfg.max_risk_score < calculate_risk_score data (last_close data)
            (current_rsi (closes data)) (current_macd (closes data)) (bb_width data)
            (calculate_volatility data) then none
        else if bb_upper data = bb_lower data then none
        else
          let sigs := signals data ydl
          if sigs.length < cfg.min_signals then none else some sigs

/-- The admission predicate of the spec (§4.4): signal count, risk score,
volatility, liquidity and price floors, over the values the code computes. -/
def admission (cfg : Config) (data ydl : List Bar) : Prop :=
  cfg.min_signals ≤ (signals data ydl).length
    ∧ calculate_risk_score data (last_close data) (current_rsi (closes data))
      (current_macd (closes data)) (bb_width data) (calculate_volatility data)
      ≤ cfg.max_risk_score
    ∧ calculate_volatility data ≤ cfg.max_volatility
    ∧ cfg.min_avg_volume ≤ avg_volume_20 data
    ∧ cfg.min_price ≤ last_close data

end Sheets

/-- The fields of one basic-variant result row that its ranking reads
(`results.sort(key=lambda x: x["Signal_Count"], reverse=True)`, line 273). -/
structure ScanRow where
  ticker : String
  signal_count : ℕ
  deriving DecidableEq

/-- The fields of one sheets-variant result row that its ranking reads
(`results.sort(key=lambda x: (x['Risk_Score'], -x['Signals']))`, line 402). -/
structure SheetRow where
  ticker : String
  risk_score : ℤ
  signal_count : ℕ
  deriving DecidableEq

/-- The total preorder realised by `sort(key=Signal_Count, reverse=True)`:
signal count descending. -/
def byCountDesc (a b : ScanRow) : Prop := b.signal_count ≤ a.signal_count

/-- The total preorder realised by `sort(key=(Risk_Score, -Signals))`:
risk ascending, then signal count descending. -/
def byRiskThenCount (a b : SheetRow) : Prop :=
  a.risk_score < b.risk_score
    ∨ (a.risk_score = b.risk_score ∧ b.signal_count ≤ a.signal_count)

instance : DecidableRel byCountDesc := fun a b => by
  unfold byCountDesc; infer_instance

instance : DecidableRel byRiskThenCount := fun a b => by
  unfold byRiskThenCount; infer_instance

instance : IsTotal ScanRow byCountDesc :=
  ⟨fun a b => by unfold byCountDesc; omega⟩

instance : IsTrans ScanRow byCountDesc :=
  ⟨fun a b c hab hbc => by unfold byCountDesc at *; omega⟩

instance : IsTotal SheetRow byRiskThenCount :=
  ⟨fun a b => by unfold byRiskThenCount; omega⟩

instance : IsTrans SheetRow byRiskThenCount :=
  ⟨fun a b c hab hbc => by unfold byRiskThenCount at *; omega⟩

/-- The basic-variant ranking (line 273).  Python's `list.sort` is the stable
ascending sort by the key; a stable sort by a total preorder is unique, and
`List.insertionSort` with a key preorder that holds on equal keys is exactly
that stable sort (it inserts every earlier element before its equals). -/
def sortBasic (l : List ScanRow) : List ScanRow := List.insertionSort byCountDesc l

/-- The sheets-variant ranking (line 402), same stable-sort model. -/
def sortSheets (l : List SheetRow) : List SheetRow := List.insertionSort byRiskThenCount l

/-- 60 identical bars `Open=High=Low=Close=100`, constant volume: the
flat-series scenario of the spec (§8). -/
def flat60 : List Bar := List.replicate 60 (mkBar 100 1000000)

/-- 50 identical bars: a zero-width-Bollinger input for the sheets variant. -/
def flat50 : List Bar := List.replicate 50 (mkBar 100 1000000)

/-- 50 flat-price bars whose last volume doubles: fires the two volume rules
and the two 52-week proximity rules while the Bollinger bands stay
zero-width. -/
def flatV50 : List Bar :=
  List.replicate 49 (mkBar 100 1000000) ++ [mkBar 100 2000000]

/-- 50 bars, flat at 100 except a single 104 inside the last 20 bars: the
Bollinger bands have nonzero width. -/
def bump50 : List Bar :=
  List.replicate 40 (mkBar 100 1000000) ++ [mkBar 104 1000000]
    ++ List.replicate 9 (mkBar 100 1000000)

/-- 60 bars with closes 1,2,…,60: the short SMA exceeds the long SMA on the
last bar and on the bar before (no crossover at the last bar). -/
def lin60 : List Bar := (List.range 60).map (fun i => mkBar ((i : ℚ) + 1) 1000000)

/-- A 10-bar series: insufficient history for every indicator. -/
def short10 : List Bar := List.replicate 10 (mkBar 100 1000000)

/-- Fifteen identical closes: the minimal zero-movement RSI window. -/
def c15 : List ℚ := List.replicate 15 100

set_option maxRecDepth 400000

theorem mem_sigIf {α : Type} {a s : α} {c : Prop} [Decidable c] :
    a ∈ sigIf c s ↔ c ∧ a = s := by
  unfold sigIf
  split_ifs with h <;> simp [h]

theorem mem_ite_list {α : Type} {a : α} (c : Prop) [Decidable c] (l1 l2 : List α) :
    (a ∈ if c then l1 else l2) ↔ (c ∧ a ∈ l1) ∨ (¬c ∧ a ∈ l2) := by
  split_ifs with h <;> simp [h]

theorem qsum_nonneg : ∀ {l : List ℚ}, (∀ x ∈ l, 0 ≤ x) → 0 ≤ qsum l
  | [], _ => le_refl 0
  | x :: xs, h => by
    have h1 : 0 ≤ x := h x (List.mem_cons_self x xs)
    have h2 : 0 ≤ qsum xs := qsum_nonneg (fun y hy => h y (List.mem_cons_of_mem x hy))
    show 0 ≤ x + qsum xs
    linarith

theorem mean_nonneg {l : List ℚ} (h : ∀ x ∈ l, 0 ≤ x) : 0 ≤ mean l := by
  unfold mean
  exact div_nonneg (qsum_nonneg h) (Nat.cast_nonneg _)

theorem mean_lastN_max_nonneg (f : ℚ → ℚ) (l : List ℚ) :
    0 ≤ mean (lastN 14 (l.map (fun d => max (f d) 0))) := by
  apply mean_nonneg
  intro x hx
  have hx' : x ∈ l.map (fun d => max (f d) 0) := List.mem_of_mem_drop hx
  obtain ⟨d, _, rfl⟩ := List.mem_map.mp hx'
  exact le_max_right (f d) 0

theorem compute_rsi_eq (close : List ℚ) (h : 15 ≤ close.length) :
    StockScanner.compute_rsi close =
      (if mean (lastN 14 ((deltas close).map (fun d => max (-d) 0))) = 0
        then (if 0 < mean (lastN 14 ((deltas close).map (fun d => max d 0)))
          then some 100 else some 50)
        else some (100 - 100 / (1
          + mean (lastN 14 ((deltas close).map (fun d => max d 0)))
          / mean (lastN 14 ((deltas close).map (fun d => max (-d) 0)))))) := by
  unfold StockScanner.compute_rsi
  rw [if_neg (by omega)]

theorem filter_orderedInsert_pos {α : Type} (r : α → α → Prop) [DecidableRel r]
    (p : α → Bool) (x : α) (hx : p x = true) (hskip : ∀ y, ¬ r x y → p y = false) :
    ∀ l : List α, (List.orderedInsert r x l).filter p = x :: l.filter p := by
  intro l
  induction l with
  | nil => simp [hx]
  | cons b t ih =>
    by_cases h : r x b
    · rw [List.orderedInsert, if_pos h]
      simp [List.filter_cons, hx]
    · rw [List.orderedInsert, if_neg h]
      simp [List.filter_cons, hskip b h, ih]

theorem filter_orderedInsert_neg {α : Type} (r : α → α → Prop) [DecidableRel r]
    (p : α → Bool) (x : α) (hx : p x = false) :
    ∀ l : List α, (List.orderedInsert r x l).filter p = l.filter p := by
  intro l
  induction l with
  | nil => simp [hx]
  | cons b t ih =>
    by_cases h : r x b
    · rw [List.orderedInsert, if_pos h]
      simp [List.filter_cons, hx]
    · rw [List.orderedInsert, if_neg h]
      simp [List.filter_cons, ih]

theorem filter_insertionSort {α : Type} (r : α → α → Prop) [DecidableRel r]
    (p : α → Bool) (hp : ∀ x y, p x = true → ¬ r x y → p y = false) :
    ∀ l : List α, (List.insertionSort r l).filter p = l.filter p := by
  intro l
  induction l with
  | nil => rfl
  | cons a t ih =>
    rw [List.insertionSort]
    cases ha : p a with
    | true =>
      rw [filter_orderedInsert_pos r p a ha (fun y hy => hp a y ha hy), ih]
      simp [List.filter_cons, ha]
    | false =>
      rw [filter_orderedInsert_neg r p a ha, ih]
      simp [List.filter_cons, ha]

/-- Claim C1, counterexample: on 60 identical bars (Open=High=Low=Close=100,
constant volume; 1-year fetch failed so `high_52w = low_52w = last_close`),
the basic pipeline does NOT produce an empty SignalSet and the ticker IS
admitted under the hard-coded `min_signals = 3`. -/
theorem C1_counterexample :
    StockScanner.signals flat60 none ≠ []
    ∧ (StockScanner.scan_single_stock (Except.ok flat60) none).isSome = true := by
  exact of_decide_eq_true (by with_unfolding_all rfl)

/-- Claim C1, amended: on 60 identical bars the RSI is 50 (the no-movement
fallback) and both SMAs are 100, so Golden_Cross and Volume_Surge do not
fire; but RSI_Normal (30<50<70), Near_52W_High, BB_Oversold_Bounce,
BB_Breakout (the BB rules carry ±2% tolerance factors and the bands have
zero width) and New_52W_High all fire, giving 5 signals, and the ticker is
admitted under `min_signals = 3`. -/
theorem C1_flat_series :
    StockScanner.compute_rsi (StockScanner.closes flat60) = some 50
    ∧ StockScanner.sma_20 flat60 = 100
    ∧ StockScanner.sma_50 flat60 = some 100
    ∧ StockScanner.signals flat60 none =
      [.RSI_Normal, .Near_52W_High, .BB_Oversold_Bounce, .BB_Breakout, .New_52W_High]
    ∧ StockScanner.BSig.Golden_Cross ∉ StockScanner.signals flat60 none
    ∧ StockScanner.BSig.Volume_Surge ∉ StockScanner.signals flat60 none
    ∧ StockScanner.scan_single_stock (Except.ok flat60) none =
      some [.RSI_Normal, .Near_52W_High, .BB_Oversold_Bounce, .BB_Breakout, .New_52W_High] := by
  exact of_decide_eq_true (by with_unfolding_all rfl)

/-- Claim C3: on 50 identical bars the sheets variant reaches the BB-position
ratio with `bb_upper = bb_lower` (the liquidity, price, volatility and risk
filters all pass), the `ZeroDivisionError` is caught only by the per-ticker
`except`, and the whole ticker is dropped - the remaining rules are never
evaluated, contradicting the required guard. -/
theorem C3_zero_width_crash :
    Sheets.bb_upper flat50 = Sheets.bb_lower flat50
    ∧ 500000 ≤ Sheets.avg_volume_20 flat50
    ∧ 5 ≤ Sheets.last_close flat50
    ∧ Sheets.calculate_volatility flat50 ≤ 60
    ∧ Sheets.calculate_risk_score flat50 (Sheets.last_close flat50)
      (Sheets.current_rsi (Sheets.closes flat50)) (Sheets.current_macd (Sheets.closes flat50))
      (Sheets.bb_width flat50) (Sheets.calculate_volatility flat50) = 41
    ∧ Sheets.scan_single_stock Sheets.defaultConfig (Except.ok flat50) (Except.ok flat50)
      = none := by
  exact of_decide_eq_true (by with_unfolding_all rfl)

/-- Claim C6, counterexample: two admitted rows with identical sort keys are
emitted in accumulation order ("B" before "A"), not in ticker lexical order,
in both variants - Python's `list.sort` is stable and neither key mentions
the ticker. -/
theorem C6_counterexample :
    sortSheets [⟨"B", 40, 3⟩, ⟨"A", 40, 3⟩] = [⟨"B", 40, 3⟩, ⟨"A", 40, 3⟩]
    ∧ sortSheets [⟨"B", 40, 3⟩, ⟨"A", 40, 3⟩] ≠ [⟨"A", 40, 3⟩, ⟨"B", 40, 3⟩]
    ∧ sortBasic [⟨"B", 3⟩, ⟨"A", 3⟩] = [⟨"B", 3⟩, ⟨"A", 3⟩]
    ∧ sortBasic [⟨"B", 3⟩, ⟨"A", 3⟩] ≠ [⟨"A", 3⟩, ⟨"B", 3⟩] := by
  exact of_decide_eq_true (by with_unfolding_all rfl)

/-- Claim C6, amended: the sheets ranking is sorted by risk ascending then
signal count descending, the basic ranking by signal count descending; both
are permutations of the accumulated results, and ties are broken by the
original accumulation order (the sort is stable: the sublist of rows with any
fixed key is unchanged), not by ticker. -/
theorem C6_ranking :
    (∀ l : List SheetRow,
      List.Sorted byRiskThenCount (sortSheets l)
      ∧ (sortSheets l).Perm l
      ∧ ∀ (k : ℤ) (c : ℕ),
        (sortSheets l).filter (fun x => decide (x.risk_score = k ∧ x.signal_count = c))
          = l.filter (fun x => decide (x.risk_score = k ∧ x.signal_count = c)))
    ∧ (∀ l : List ScanRow,
      List.Sorted byCountDesc (sortBasic l)
      ∧ (sortBasic l).Perm l
      ∧ ∀ c : ℕ,
        (sortBasic l).filter (fun x => decide (x.signal_count = c))
          = l.filter (fun x => decide (x.signal_count = c))) := by
  constructor
  · intro l
    refine ⟨List.sorted_insertionSort _ _, List.perm_insertionSort _ _, ?_⟩
    intro k c
    apply filter_insertionSort
    intro x y hx h
    have hx' : x.risk_score = k ∧ x.signal_count = c := by simpa using hx
    unfold byRiskThenCount at h
    simp only [decide_eq_false_iff_not]
    omega
  · intro l
    refine ⟨List.sorted_insertionSort _ _, List.perm_insertionSort _ _, ?_⟩
    intro c
    apply filter_insertionSort
    intro x y hx h
    have hx' : x.signal_count = c := by simpa using hx
    unfold byCountDesc at h
    simp only [decide_eq_false_iff_not]
    omega

/-- Claim C2, amended: in the sheets variant (≥ 51 bars, so the prior long
SMA exists) Golden_Cross fires iff the short SMA exceeds the long SMA now
and did not on the prior bar; in the basic variant Golden_Cross fires iff
`sma_20 > sma_50` on the current bar alone - no crossover is required. -/
theorem C2_golden_cross_iff (dB dS : List Bar) (y : Option (List Bar)) (ydl : List Bar)
    (hS : 51 ≤ dS.length) :
    (StockScanner.BSig.Golden_Cross ∈ StockScanner.signals dB y ↔
      onSome (StockScanner.sma_50 dB) (fun s => s < StockScanner.sma_20 dB))
    ∧ (Sheets.SSig.golden_cross ∈ Sheets.signals dS ydl ↔
      (Sheets.sma_50 dS < Sheets.sma_20 dS
        ∧ Sheets.prev_sma_20 dS ≤ mean (lastN 50 (Sheets.closes dS).dropLast))) := by
  constructor
  · simp [StockScanner.signals, mem_sigIf, List.mem_append]
  · have hp : Sheets.prev_sma_50 dS = some (mean (lastN 50 (Sheets.closes dS).dropLast)) := by
      unfold Sheets.prev_sma_50
      rw [if_pos]
      simpa [Sheets.closes] using hS
    simp [Sheets.signals, mem_sigIf, mem_ite_list, List.mem_append, hp, onSome]

/-- Claim C2, witness: the characterisation instantiated on the 60-bar
linearly increasing series. -/
theorem C2_witness :
    51 ≤ lin60.length
    ∧ ((StockScanner.BSig.Golden_Cross ∈ StockScanner.signals lin60 none ↔
        onSome (StockScanner.sma_50 lin60) (fun s => s < StockScanner.sma_20 lin60))
      ∧ (Sheets.SSig.golden_cross ∈ Sheets.signals lin60 lin60 ↔
        (Sheets.sma_50 lin60 < Sheets.sma_20 lin60
          ∧ Sheets.prev_sma_20 lin60 ≤ mean (lastN 50 (Sheets.closes lin60).dropLast)))) :=
  ⟨of_decide_eq_true (by with_unfolding_all rfl),
    C2_golden_cross_iff lin60 lin60 none lin60 (of_decide_eq_true (by with_unfolding_all rfl))⟩

/-- Claim C2, counterexample: on closes 1,2,…,60 the prior-bar short SMA
(49.5) is strictly ABOVE the prior-bar long SMA (34.5) - no crossover at the
last bar - yet the basic variant appends Golden_Cross. -/
theorem C2_counterexample :
    StockScanner.BSig.Golden_Cross ∈ StockScanner.signals lin60 none
    ∧ StockScanner.sma_20 lin60.dropLast = 99 / 2
    ∧ StockScanner.sma_50 lin60.dropLast = some (69 / 2)
    ∧ (69 : ℚ) / 2 < 99 / 2 := by
  exact of_decide_eq_true (by with_unfolding_all rfl)

/-- Claim C4, amended: `compute_rsi` of the basic variant satisfies the
claimed case analysis - 100 when the trailing average loss is 0 and the
average gain is positive, 50 when both trailing averages are 0, otherwise
`100 − 100/(1 + avg_gain/avg_loss)` - and its value always lies in [0, 100].
(The sheets variant's inline RSI does not: see the counterexample.) -/
theorem C4_rsi_characterisation (close : List ℚ) (h : 15 ≤ close.length) :
    (mean (lastN 14 ((deltas close).map (fun d => max (-d) 0))) = 0 →
      0 < mean (lastN 14 ((deltas close).map (fun d => max d 0))) →
      StockScanner.compute_rsi close = some 100)
    ∧ (mean (lastN 14 ((deltas close).map (fun d => max (-d) 0))) = 0 →
      mean (lastN 14 ((deltas close).map (fun d => max d 0))) = 0 →
      StockScanner.compute_rsi close = some 50)
    ∧ (mean (lastN 14 ((deltas close).map (fun d => max (-d) 0))) ≠ 0 →
      StockScanner.compute_rsi close = some (100 - 100 / (1
        + mean (lastN 14 ((deltas close).map (fun d => max d 0)))
        / mean (lastN 14 ((deltas close).map (fun d => max (-d) 0))))))
    ∧ ∃ r, StockScanner.compute_rsi close = some r ∧ 0 ≤ r ∧ r ≤ 100 := by
  have hg : 0 ≤ mean (lastN 14 ((deltas close).map (fun d => max d 0))) :=
    mean_lastN_max_nonneg (fun d => d) (deltas close)
  have hl : 0 ≤ mean (lastN 14 ((deltas close).map (fun d => max (-d) 0))) :=
    mean_lastN_max_nonneg (fun d => -d) (deltas close)
  rw [compute_rsi_eq close h]
  refine ⟨?_, ?_, ?_, ?_⟩
  · intro h0 hgpos
    rw [if_pos h0, if_pos hgpos]
  · intro h0 hg0
    rw [if_pos h0, if_neg (by rw [hg0]; exact lt_irrefl 0)]
  · intro h0
    rw [if_neg h0]
  · by_cases h0 : mean (lastN 14 ((deltas close).map (fun d => max (-d) 0))) = 0
    · rw [if_pos h0]
      by_cases hgpos : 0 < mean (lastN 14 ((deltas close).map (fun d => max d 0)))
      · exact ⟨100, by rw [if_pos hgpos], by norm_num, by norm_num⟩
      · exact ⟨50, by rw [if_neg hgpos], by norm_num, by norm_num⟩
    · rw [if_neg h0]
      have hlpos : 0 < mean (lastN 14 ((deltas close).map (fun d => max (-d) 0))) :=
        lt_of_le_of_ne hl (Ne.symm h0)
      have hrs : 0 ≤ mean (lastN 14 ((deltas close).map (fun d => max d 0)))
          / mean (lastN 14 ((deltas close).map (fun d => max (-d) 0))) :=
        div_nonneg hg (le_of_lt hlpos)
      refine ⟨_, rfl, ?_, ?_⟩
      · have : 100 / (1 + mean (lastN 14 ((deltas close).map (fun d => max d 0)))
            / mean (lastN 14 ((deltas close).map (fun d => max (-d) 0)))) ≤ 100 :=
          div_le_self (by norm_num) (by linarith)
        linarith
      · have : 0 < 100 / (1 + mean (lastN 14 ((deltas close).map (fun d => max d 0)))
            / mean (lastN 14 ((deltas close).map (fun d => max (-d) 0)))) :=
          div_pos (by norm_num) (by linarith)
        linarith

/-- Claim C4, witness: the characterisation instantiated on fifteen identical
closes (zero-movement window). -/
theorem C4_witness :
    15 ≤ c15.length
    ∧ ((mean (lastN 14 ((deltas c15).map (fun d => max (-d) 0))) = 0 →
        0 < mean (lastN 14 ((deltas c15).map (fun d => max d 0))) →
        StockScanner.compute_rsi c15 = some 100)
      ∧ (mean (lastN 14 ((deltas c15).map (fun d => max (-d) 0))) = 0 →
        mean (lastN 14 ((deltas c15).map (fun d => max d 0))) = 0 →
        StockScanner.compute_rsi c15 = some 50)
      ∧ (mean (lastN 14 ((deltas c15).map (fun d => max (-d) 0))) ≠ 0 →
        StockScanner.compute_rsi c15 = some (100 - 100 / (1
          + mean (lastN 14 ((deltas c15).map (fun d => max d 0)))
          / mean (lastN 14 ((deltas c15).map (fun d => max (-d) 0))))))
      ∧ ∃ r, StockScanner.compute_rsi c15 = some r ∧ 0 ≤ r ∧ r ≤ 100) :=
  ⟨of_decide_eq_true (by with_unfolding_all rfl),
    C4_rsi_characterisation c15 (of_decide_eq_true (by with_unfolding_all rfl))⟩

/-- Claim C4, counterexample: the sheets variant's inline RSI (the second
code place the claim cites) on a zero-movement window has both trailing
averages equal to 0 but evaluates to NaN (`none`), not 50 - so the computed
RSI is not always a finite value in [0, 100]. -/
theorem C4_counterexample :
    mean (lastN 14 ((deltas (Sheets.closes flat50)).map (fun d => max d 0))) = 0
    ∧ mean (lastN 14 ((deltas (Sheets.closes flat50)).map (fun d => max (-d) 0))) = 0
    ∧ Sheets.current_rsi (Sheets.closes flat50) = none
    ∧ Sheets.current_rsi (Sheets.closes flat50) ≠ some 50 := by
  exact of_decide_eq_true (by with_unfolding_all rfl)

/-- Claim C5, amended: given ≥ 50 fetched bars, positive closes, a successful
1-year fetch and non-degenerate Bollinger bands, the sheets variant retains a
ticker iff signal count, risk score, volatility, average volume and last
close all meet their thresholds.  When `bb_upper = bb_lower` the ticker is
dropped regardless (see the counterexample): the `position_bb` division
raises and the per-ticker `except` returns `None`. -/
theorem C5_admission_iff (cfg : Sheets.Config) (data ydl : List Bar)
    (h50 : 50 ≤ data.length)
    (hpos : ∀ b ∈ data, 0 < b.close)
    (hbb : Sheets.bb_upper data ≠ Sheets.bb_lower data) :
    (Sheets.scan_single_stock cfg (Except.ok data) (Except.ok ydl)).isSome = true
      ↔ Sheets.admission cfg data ydl := by
  simp only [Sheets.scan_single_stock]
  split_ifs with h1 h2 h3 h4 h5 h6
  · exact absurd h1 (by omega)
  · simp only [Option.isSome_none, Bool.false_eq_true, false_iff]
    rintro ⟨-, -, -, hA, -⟩
    exact absurd hA (not_le.mpr h2)
  · simp only [Option.isSome_none, Bool.false_eq_true, false_iff]
    rintro ⟨-, -, -, -, hA⟩
    exact absurd hA (not_le.mpr h3)
  · simp only [Option.isSome_none, Bool.false_eq_true, false_iff]
    rintro ⟨-, -, hA, -, -⟩
    exact absurd hA (not_le.mpr h4)
  · simp only [Option.isSome_none, Bool.false_eq_true, false_iff]
    rintro ⟨-, hA, -, -, -⟩
    exact absurd hA (not_le.mpr h5)
  · simp only [Option.isSome_none, Bool.false_eq_true, false_iff]
    rintro ⟨hA, -, -, -, -⟩
    exact absurd hA (not_le.mpr h6)
  · simp only [Option.isSome_some, true_iff]
    unfold Sheets.admission
    exact ⟨not_lt.mp h6, not_lt.mp h5, not_lt.mp h4, not_lt.mp h2, not_lt.mp h3⟩

/-- Claim C5, witness: the admission equivalence instantiated on a 50-bar
series with non-degenerate Bollinger bands. -/
theorem C5_witness :
    (50 ≤ bump50.length ∧ (∀ b ∈ bump50, 0 < b.close)
      ∧ Sheets.bb_upper bump50 ≠ Sheets.bb_lower bump50)
    ∧ ((Sheets.scan_single_stock Sheets.defaultConfig (Except.ok bump50)
        (Except.ok bump50)).isSome = true
      ↔ Sheets.admission Sheets.defaultConfig bump50 bump50) :=
  ⟨⟨of_decide_eq_true (by with_unfolding_all rfl),
      of_decide_eq_true (by with_unfolding_all rfl),
      of_decide_eq_true (by with_unfolding_all rfl)⟩,
    C5_admission_iff Sheets.defaultConfig bump50 bump50
      (of_decide_eq_true (by with_unfolding_all rfl))
      (of_decide_eq_true (by with_unfolding_all rfl))
      (of_decide_eq_true (by with_unfolding_all rfl))⟩

/-- Claim C5, counterexample: 50 flat-price bars whose last volume doubles
satisfy all five admission conditions under the module constants (4 signals
≥ 3, risk 41 ≤ 70, volatility 0 ≤ 60, average volume 1,050,000 ≥ 500,000,
close 100 ≥ 5), yet the ticker yields no result: the zero-width Bollinger
bands crash the signal evaluation. -/
theorem C5_counterexample :
    Sheets.admission Sheets.defaultConfig flatV50 flatV50
    ∧ Sheets.scan_single_stock Sheets.defaultConfig (Except.ok flatV50) (Except.ok flatV50)
      = none := by
  constructor
  · unfold Sheets.admission
    exact of_decide_eq_true (by with_unfolding_all rfl)
  · exact of_decide_eq_true (by with_unfolding_all rfl)

/-- Claim C7: below 50 bars `sma_50` is `None` (never 0) and Golden_Cross
cannot fire; below 26 bars the MACD is `None`; below 20 bars the Bollinger
triple is `None`, neither BB rule fires, and the whole ticker is rejected
before the 20-bar indicators are consumed. -/
theorem C7_insufficient_history (d1 d2 d3 : List Bar) (y : Option (List Bar))
    (h1 : d1.length < 50) (h2 : d2.length < 26) (h3 : d3.length < 20) :
    StockScanner.sma_50 d1 = none
    ∧ StockScanner.BSig.Golden_Cross ∉ StockScanner.signals d1 y
    ∧ StockScanner.macd d2 = none
    ∧ StockScanner.compute_bollinger_bands (StockScanner.closes d3) = none
    ∧ StockScanner.BSig.BB_Breakout ∉ StockScanner.signals d3 y
    ∧ StockScanner.BSig.BB_Oversold_Bounce ∉ StockScanner.signals d3 y
    ∧ StockScanner.scan_single_stock (Except.ok d3) y = none := by
  have hs : StockScanner.sma_50 d1 = none := by
    unfold StockScanner.sma_50
    rw [if_neg]
    simp [StockScanner.closes]
    omega
  have hb : StockScanner.compute_bollinger_bands (StockScanner.closes d3) = none := by
    unfold StockScanner.compute_bollinger_bands
    rw [if_pos]
    simp [StockScanner.closes]
    omega
  refine ⟨hs, ?_, ?_, hb, ?_, ?_, ?_⟩
  · simp [StockScanner.signals, mem_sigIf, List.mem_append, hs, onSome]
  · unfold StockScanner.macd
    rw [if_neg]
    simp [StockScanner.closes]
    omega
  · simp [StockScanner.signals, mem_sigIf, List.mem_append, StockScanner.bb_upper, hb, onSome]
  · simp [StockScanner.signals, mem_sigIf, List.mem_append, StockScanner.bb_lower, hb, onSome]
  · simp [StockScanner.scan_single_stock, h3]

/-- Claim C7, witness: the unavailability statement instantiated on a 10-bar
series. -/
theorem C7_witness :
    (short10.length < 50 ∧ short10.length < 26 ∧ short10.length < 20)
    ∧ (StockScanner.sma_50 short10 = none
      ∧ StockScanner.BSig.Golden_Cross ∉ StockScanner.signals short10 none
      ∧ StockScanner.macd short10 = none
      ∧ StockScanner.compute_bollinger_bands (StockScanner.closes short10) = none
      ∧ StockScanner.BSig.BB_Breakout ∉ StockScanner.signals short10 none
      ∧ StockScanner.BSig.BB_Oversold_Bounce ∉ StockScanner.signals short10 none
      ∧ StockScanner.scan_single_stock (Except.ok short10) none = none) :=
  ⟨⟨of_decide_eq_true (by with_unfolding_all rfl),
      of_decide_eq_true (by with_unfolding_all rfl),
      of_decide_eq_true (by with_unfolding_all rfl)⟩,
    C7_insufficient_history short10 short10 short10 none
      (of_decide_eq_true (by with_unfolding_all rfl))
      (of_decide_eq_true (by with_unfolding_all rfl))
      (of_decide_eq_true (by with_unfolding_all rfl))⟩

/-- Claim C9: when the 1-year fetch fails (`none`) or returns an empty frame
(`some []`), `high_52w` and `low_52w` both collapse to the last close, so for
any positive last close Near_52W_High and New_52W_High fire while
From_Low_Rebound and Strong_Rebound do not - two signals granted by a failed
fetch. -/
theorem C9_failed_year_fetch (data : List Bar) (y : Option (List Bar))
    (hy : y = none ∨ y = some []) (h : 0 < StockScanner.last_close data) :
    StockScanner.BSig.Near_52W_High ∈ StockScanner.signals data y
    ∧ StockScanner.BSig.New_52W_High ∈ StockScanner.signals data y
    ∧ StockScanner.BSig.From_Low_Rebound ∉ StockScanner.signals data y
    ∧ StockScanner.BSig.Strong_Rebound ∉ StockScanner.signals data y := by
  have h52 : StockScanner.high_52w data y = StockScanner.last_close data := by
    rcases hy with rfl | rfl <;> rfl
  have l52 : StockScanner.low_52w data y = StockScanner.last_close data := by
    rcases hy with rfl | rfl <;> rfl
  refine ⟨?_, ?_, ?_, ?_⟩
  · simp only [StockScanner.signals, mem_sigIf, List.mem_append, h52]
    simp
    constructor
    · exact ne_of_gt h
    · linarith
  · simp only [StockScanner.signals, mem_sigIf, List.mem_append, h52]
    simp
    constructor
    · exact ne_of_gt h
    · linarith
  · simp only [StockScanner.signals, mem_sigIf, List.mem_append, l52]
    simp
    intro hne
    linarith
  · simp only [StockScanner.signals, mem_sigIf, List.mem_append, l52]
    simp
    intro hne
    linarith

/-- Claim C9, witness: the failed-fetch consequence instantiated on the
60-bar flat series (last close 100 > 0, 1-year fetch raised). -/
theorem C9_witness :
    ((none : Option (List Bar)) = none ∨ (none : Option (List Bar)) = some [])
    ∧ 0 < StockScanner.last_close flat60
    ∧ (StockScanner.BSig.Near_52W_High ∈ StockScanner.signals flat60 none
      ∧ StockScanner.BSig.New_52W_High ∈ StockScanner.signals flat60 none
      ∧ StockScanner.BSig.From_Low_Rebound ∉ StockScanner.signals flat60 none
      ∧ StockScanner.BSig.Strong_Rebound ∉ StockScanner.signals flat60 none) :=
  ⟨Or.inl rfl, of_decide_eq_true (by with_unfolding_all rfl),
    C9_failed_year_fetch flat60 none (Or.inl rfl)
      (of_decide_eq_true (by with_unfolding_all rfl))⟩

/-- Claim C8: the per-ticker failure boundary.  A failed 3-month fetch, an
empty frame, and a sub-20-bar frame each yield `None` for that ticker in the
basic variant; the batch loop over the remaining tickers is unaffected; in
the sheets variant (whose whole body sits in one `try`) a failed fetch and
the post-fetch `ZeroDivisionError` of the degenerate-band computation are
likewise converted to `None`. -/
theorem C8_failure_boundary (rest : List (Except Unit (List Bar) × Option (List Bar)))
    (y : Option (List Bar)) (d : List Bar) (hd : d.length < 20) :
    StockScanner.scan_single_stock (Except.error ()) y = none
    ∧ StockScanner.runBatch ((Except.error (), y) :: rest) = StockScanner.runBatch rest
    ∧ StockScanner.scan_single_stock (Except.ok []) y = none
    ∧ StockScanner.scan_single_stock (Except.ok d) y = none
    ∧ Sheets.scan_single_stock Sheets.defaultConfig (Except.error ()) (Except.ok []) = none
    ∧ Sheets.scan_single_stock Sheets.defaultConfig (Except.ok flat50) (Except.ok flat50)
      = none := by
  refine ⟨rfl, ?_, rfl, ?_, rfl, ?_⟩
  · simp [StockScanner.runBatch, List.filterMap_cons, StockScanner.scan_single_stock]
  · simp [StockScanner.scan_single_stock, hd]
  · exact of_decide_eq_true (by with_unfolding_all rfl)

/-- Claim C8, witness: the failure boundary instantiated on a 10-bar frame
and an empty remaining batch. -/
theorem C8_witness :
    short10.length < 20
    ∧ (StockScanner.scan_single_stock (Except.error ()) none = none
      ∧ StockScanner.runBatch ((Except.error (), none) :: []) = StockScanner.runBatch []
      ∧ StockScanner.scan_single_stock (Except.ok []) none = none
      ∧ StockScanner.scan_single_stock (Except.ok short10) none = none
      ∧ Sheets.scan_single_stock Sheets.defaultConfig (Except.error ()) (Except.ok []) = none
      ∧ Sheets.scan_single_stock Sheets.defaultConfig (Except.ok flat50) (Except.ok flat50)
        = none) :=
  ⟨of_decide_eq_true (by with_unfolding_all rfl),
    C8_failure_boundary [] none short10 (of_decide_eq_true (by with_unfolding_all rfl))⟩

theorem risk_volatility_bounds (v : ℚ) :
    5 ≤ Sheets.risk_volatility v ∧ Sheets.risk_volatility v ≤ 25 := by
  unfold Sheets.risk_volatility
  split_ifs <;> norm_num

theorem risk_rsi_bounds (r : Option ℚ) :
    5 ≤ Sheets.risk_rsi r ∧ Sheets.risk_rsi r ≤ 20 := by
  unfold Sheets.risk_rsi
  split_ifs <;> norm_num

theorem risk_distance_bounds (data : List Bar) (lc : ℚ) :
    5 ≤ Sheets.risk_distance data lc ∧ Sheets.risk_distance data lc ≤ 15 := by
  unfold Sheets.risk_distance
  dsimp only
  split_ifs <;> norm_num

theorem risk_macd_bounds (m : ℚ) :
    5 ≤ Sheets.risk_macd m ∧ Sheets.risk_macd m ≤ 15 := by
  unfold Sheets.risk_macd
  split_ifs <;> norm_num

theorem risk_bb_width_bounds (w : ℚ) :
    5 ≤ Sheets.risk_bb_width w ∧ Sheets.risk_bb_width w ≤ 15 := by
  unfold Sheets.risk_bb_width
  split_ifs <;> norm_num

theorem risk_price_bounds (lc : ℚ) :
    3 ≤ Sheets.risk_price lc ∧ Sheets.risk_price lc ≤ 10 := by
  unfold Sheets.risk_price
  split_ifs <;> norm_num

/-- Claim C10: for every input in the data model (the 3-month frame has a
positive maximum high, so the distance division is defined - prices are
positive), `calculate_risk_score` returns an integer between 28 (the sum of
the six mandatory bucket minimums 5+5+5+5+5+3) and 100 (the clamp). -/
theorem C10_risk_score_bounds (data : List Bar) (lc : ℚ) (rsi : Option ℚ)
    (m bw vol : ℚ) (hhigh : 0 < listMax (data.map Bar.high)) :
    28 ≤ Sheets.calculate_risk_score data lc rsi m bw vol
    ∧ Sheets.calculate_risk_score data lc rsi m bw vol ≤ 100 := by
  obtain ⟨a1, b1⟩ := risk_volatility_bounds vol
  obtain ⟨a2, b2⟩ := risk_rsi_bounds rsi
  obtain ⟨a3, b3⟩ := risk_distance_bounds data lc
  obtain ⟨a4, b4⟩ := risk_macd_bounds m
  obtain ⟨a5, b5⟩ := risk_bb_width_bounds bw
  obtain ⟨a6, b6⟩ := risk_price_bounds lc
  unfold Sheets.calculate_risk_score
  constructor
  · exact le_min (by linarith) (by norm_num)
  · exact min_le_right _ _

/-- Claim C10, witness: the bounds instantiated on the 50-bar flat series
(maximum high 100 > 0) with a NaN RSI and arbitrary other inputs. -/
theorem C10_witness :
    0 < listMax (flat50.map Bar.high)
    ∧ (28 ≤ Sheets.calculate_risk_score flat50 100 none 0 0 0
      ∧ Sheets.calculate_risk_score flat50 100 none 0 0 0 ≤ 100) :=
  ⟨of_decide_eq_true (by with_unfolding_all rfl),
    C10_risk_score_bounds flat50 100 none 0 0 0
      (of_decide_eq_true (by with_unfolding_all rfl))⟩
